import Mathlib

/-!
Verification of the waves-unit0-bridge validator node against its
natural-language specification.

The development shallowly embeds the validator's data model and the
operations the specification speaks about:

* `SignatureEngine` — validator/src/services/SignatureEngine.ts
  (`signTransferForUnit0`, `createUnit0MessageHash`, `signTransferForWaves`,
  `tokenTypeToNumber`); the live engine is the one that hashes the
  transfer id and packs the chain id (the variant wired into the node's
  coordinator).
* `Database` — validator/src/services/Database.ts (LevelDB put/get
  modelled as association-list state; `saveTransfer`, `saveAttestation`,
  `updateTransferStatus`, `getPendingTransfers`, block-height watermarks).
* `Relayer` — validator/src/services/Relayer.ts (`relayToUnit0` decision
  logic and the argument list of the `releaseTokens` / `releaseNFT` call,
  `tokenTypeToNumber`, `transferIdToBytes32`).
* `ValidatorNode` — validator/src/index.ts (`handleNewTransfer`,
  `handleReceivedAttestation`, `processPendingTransfers`).

Cryptographic primitives (keccak256, sha256, ed25519 signing, secp256k1
recovery) are external libraries; functions over byte lists model them as
explicit parameters, while all byte-packing and string building the node
itself performs is embedded concretely.  Bytes are `Nat` values < 256 in
`List Nat`.
-/

namespace WUBridge

/-- UTF-8 encoding of a unicode code point, standard four-range layout. -/
def utf8EncodeCharNat (n : Nat) : List Nat :=
  if n < 0x80 then [n]
  else if n < 0x800 then [0xC0 + n / 64, 0x80 + n % 64]
  else if n < 0x10000 then [0xE0 + n / 4096, 0x80 + (n / 64) % 64, 0x80 + n % 64]
  else [0xF0 + n / 262144, 0x80 + (n / 4096) % 64, 0x80 + (n / 64) % 64, 0x80 + n % 64]

/-- UTF-8 bytes of a string (ethers `toUtf8Bytes`, `TextEncoder.encode`). -/
def utf8 (s : String) : List Nat :=
  (s.data.map (fun c => utf8EncodeCharNat c.toNat)).flatten

/-- Value of one hexadecimal digit character (as `parseInt(_, 16)` reads it). -/
def hexDigitVal (c : Char) : Nat :=
  if 48 ≤ c.toNat ∧ c.toNat ≤ 57 then c.toNat - 48
  else if 97 ≤ c.toNat ∧ c.toNat ≤ 102 then c.toNat - 87
  else if 65 ≤ c.toNat ∧ c.toNat ≤ 70 then c.toNat - 55
  else 0

/-- Drop a leading "0x" marker, as the relayer's hex helpers do. -/
def stripHexMark (s : String) : List Char :=
  match s.data with
  | '0' :: 'x' :: rest => rest
  | l => l

/-- Consume hex digits two at a time into bytes (Relayer.hexToBytes core loop). -/
def hexPairs : List Char → List Nat
  | c1 :: c2 :: rest => (hexDigitVal c1 * 16 + hexDigitVal c2) :: hexPairs rest
  | _ => []

/-- `Relayer.hexToBytes`: strip "0x", then parse byte pairs.  Also the byte
content ethers uses when packing an `address` argument given as hex text. -/
def hexToBytes (s : String) : List Nat :=
  hexPairs (stripHexMark s)

/-- Big-endian fixed-width byte encoding of an unsigned integer, width `w`
bytes (`uint256` packs with `w = 32`, `uint8` with `w = 1`). -/
def beBytes (w n : Nat) : List Nat :=
  (List.range w).map (fun i => n / 256 ^ (w - 1 - i) % 256)

/-- Lower-case hex digit for a value below 16. -/
def hexDigitChar (n : Nat) : Char :=
  if n < 10 then Char.ofNat (48 + n) else Char.ofNat (87 + n)

/-- "0x"-prefixed lower-case hex rendering of a byte list. -/
def bytesToHex (bs : List Nat) : String :=
  "0x" ++ String.mk ((bs.map (fun b => [hexDigitChar (b / 16), hexDigitChar (b % 16)])).flatten)

/-- types/index.ts `ChainType`. -/
inductive ChainType where
  | WAVES
  | UNIT0
  deriving DecidableEq, Repr

/-- types/index.ts `TokenType` (`ERC20 = 0, ERC721 = 1, ERC1155 = 2, NATIVE = 3`). -/
inductive TokenType where
  | ERC20
  | ERC721
  | ERC1155
  | NATIVE
  deriving DecidableEq, Repr

/-- types/index.ts `TransferStatus` string union. -/
inductive TransferStatus where
  | pending
  | attesting
  | relaying
  | completed
  | failed
  deriving DecidableEq, Repr

/-- types/index.ts `TransferEvent`; source-location metadata the embedded
operations never read (block number, block hash, tx hash, timestamps) is
omitted. -/
structure TransferEvent where
  transferId : String
  sourceChain : ChainType
  destinationChain : ChainType
  token : String
  amount : Nat
  sender : String
  recipient : String
  tokenType : TokenType
  tokenId : Option Nat
  deriving DecidableEq, Repr

/-- types/index.ts `SignedAttestation`. -/
structure SignedAttestation where
  transferId : String
  signature : String
  validatorAddress : String
  publicKey : Option String
  messageHash : String
  timestamp : Nat
  deriving DecidableEq, Repr

namespace SignatureEngine

/-- `SignatureEngine.tokenTypeToNumber`: ERC20 to 0, ERC721 to 1, ERC1155 to 2,
anything else (the `default` switch branch, i.e. NATIVE) to 0. -/
def tokenTypeToNumber : TokenType → Nat
  | .ERC20 => 0
  | .ERC721 => 1
  | .ERC1155 => 2
  | .NATIVE => 0

/-- The bytes of the Ethereum personal-message banner for a 32-byte payload,
as prepended by `wallet.signMessage` over a 32-byte digest. -/
def ethSignedBanner : List Nat := utf8 "\x19Ethereum Signed Message:\n32"

/-- `SignatureEngine.createUnit0MessageHash`: keccak256 of the
`solidityPacked` encoding of
`(bytes32 keccak256(utf8 transferId), address token, uint256 amount,
address recipient, uint8 tokenType, uint256 tokenId or 0, uint256 chainId)`.
`keccak` abstracts the keccak256 function over byte lists. -/
def createUnit0MessageHash (keccak : List Nat → List Nat) (chainId : Nat)
    (t : TransferEvent) (tokenAddress : String) : List Nat :=
  let transferIdBytes32 := keccak (utf8 t.transferId)
  keccak (transferIdBytes32 ++ hexToBytes tokenAddress ++ beBytes 32 t.amount ++
    hexToBytes t.recipient ++ [tokenTypeToNumber t.tokenType] ++
    beBytes 32 (t.tokenId.getD 0) ++ beBytes 32 chainId)

/-- The digest actually signed by `signTransferForUnit0`:
`wallet.signMessage (getBytes messageHash)` signs
`keccak256(banner ++ messageHash)`.  The token address is the resolved
Unit0 address when supplied, else the event's own token field. -/
def unit0AttestationDigest (keccak : List Nat → List Nat) (chainId : Nat)
    (t : TransferEvent) (resolvedToken : Option String) : List Nat :=
  let tokenAddress := resolvedToken.getD t.token
  keccak (ethSignedBanner ++ createUnit0MessageHash keccak chainId t tokenAddress)

/-- The hard-coded chain id constant in `signTransferForWaves`. -/
def UNIT0_CHAIN_ID : Nat := 88811

/-- `SignatureEngine.signTransferForWaves` message building:
`transferId + recipient + assetId + amount.toString() + UNIT0_CHAIN_ID.toString()`,
plain string concatenation. -/
def createWavesMessageData (t : TransferEvent) (wavesAssetId : String) : String :=
  t.transferId ++ t.recipient ++ wavesAssetId ++ toString t.amount ++ toString UNIT0_CHAIN_ID

/-- `SignatureEngine.signTransferForWaves`.  `sha256` abstracts the SHA-256
hash; `signBytes` abstracts the waves library's deterministic ed25519
signing, which takes the seed and the bytes to sign and returns the
Base58-encoded 64-byte signature; `wavesPublicKey` abstracts the library's
seed-to-public-key derivation (Base58). -/
def signTransferForWaves (sha256 : List Nat → List Nat)
    (signBytes : String → List Nat → String) (wavesPublicKey : String → String)
    (seed walletAddress : String) (now : Nat)
    (t : TransferEvent) (wavesAssetId : String) : SignedAttestation :=
  let messageData := createWavesMessageData t wavesAssetId
  let messageHash := sha256 (utf8 messageData)
  { transferId := t.transferId
    signature := signBytes seed messageHash
    validatorAddress := walletAddress
    publicKey := some (wavesPublicKey seed)
    messageHash := bytesToHex messageHash
    timestamp := now }

end SignatureEngine

namespace Spec

/-- Modelled from the spec's words (for comparison with the code-derived
definition): the 32-byte transfer id of an A-originated text transfer id is
keccak256 of its UTF-8 bytes. -/
def transferIdAs32Bytes (keccak : List Nat → List Nat) (transferId : String) : List Nat :=
  keccak (utf8 transferId)

/-- Modelled from the spec's words: the outer hash is keccak256 of the tight
packed concatenation of the 32-byte transfer id, the 20-byte B-side token
address, the amount as u256 big-endian, the 20-byte recipient, the token
kind as u8, the token id as u256 (0 when absent), and the destination chain
id as u256, in that order, with no length prefixes. -/
def outerHash (keccak : List Nat → List Nat) (t : TransferEvent)
    (tokenRef : String) (destChainId : Nat) : List Nat :=
  keccak (List.flatten
    [transferIdAs32Bytes keccak t.transferId,
     hexToBytes tokenRef,
     beBytes 32 t.amount,
     hexToBytes t.recipient,
     beBytes 1 (SignatureEngine.tokenTypeToNumber t.tokenType),
     beBytes 32 (t.tokenId.getD 0),
     beBytes 32 destChainId])

/-- Modelled from the spec's words: the attestation digest is keccak256 of the
Ethereum personal-message banner applied to the outer hash. -/
def unit0SignedDigest (keccak : List Nat → List Nat) (t : TransferEvent)
    (tokenRef : String) (destChainId : Nat) : List Nat :=
  keccak (SignatureEngine.ethSignedBanner ++ outerHash keccak t tokenRef destChainId)

/-- Modelled from the spec's words: the chain-A message is the plain UTF-8
string concatenation of transfer id, recipient, A-side asset reference,
decimal amount and decimal other-chain id, with no separators, and the
signed digest is sha256 of it. -/
def wavesDigest (sha256 : List Nat → List Nat) (t : TransferEvent)
    (assetRef : String) (otherChainId : Nat) : List Nat :=
  sha256 (utf8 (t.transferId ++ t.recipient ++ assetRef ++
    toString t.amount ++ toString otherChainId))

end Spec

/-- Replace-or-append update of an association list, the observable behavior
of a LevelDB `put` under the store's unique-key discipline. -/
def setAssoc {K A : Type} [DecidableEq K] : List (K × A) → K → A → List (K × A)
  | [], k, v => [(k, v)]
  | p :: rest, k, v => if p.1 = k then (k, v) :: rest else p :: setAssoc rest k v

/-- Lookup in an association list (LevelDB `get`, `none` for LEVEL_NOT_FOUND). -/
def getAssoc {K A : Type} [DecidableEq K] : List (K × A) → K → Option A
  | [], _ => none
  | p :: rest, k => if p.1 = k then some p.2 else getAssoc rest k

/-- Database.ts `TransferRecord`. -/
structure TransferRecord where
  transfer : TransferEvent
  attestations : List SignedAttestation
  status : TransferStatus
  relayTxHash : Option String
  createdAt : Nat
  updatedAt : Nat
  deriving DecidableEq, Repr

/-- The persistent store of Database.ts: `transfer:{id}` rows,
`attestation:{transferId}:{validatorAddress}` rows and the two block-height
watermarks, modelled as association lists and options. -/
structure DB where
  transfers : List (String × TransferRecord)
  attestRows : List ((String × String) × SignedAttestation)
  wavesHeight : Option Nat
  unit0Height : Option Nat
  deriving DecidableEq, Repr

/-- The empty store. -/
def DB.empty : DB := ⟨[], [], none, none⟩

namespace Database

/-- `Database.getTransfer`. -/
def getTransfer (db : DB) (transferId : String) : Option TransferRecord :=
  getAssoc db.transfers transferId

/-- `Database.saveTransfer`: insert a fresh record with empty attestations and
status `pending` only when the id is absent; otherwise leave the store as is.
`now` stands for `Date.now()`. -/
def saveTransfer (now : Nat) (t : TransferEvent) (db : DB) : DB :=
  match getTransfer db t.transferId with
  | some _ => db
  | none =>
    let r : TransferRecord :=
      { transfer := t, attestations := [], status := .pending,
        relayTxHash := none, createdAt := now, updatedAt := now }
    { db with transfers := setAssoc db.transfers t.transferId r }

/-- `Database.updateTransferStatus`: overwrite the record's status
unconditionally; keep the stored relay tx hash when none is given.  A missing
record throws in the source; every caller catches, so the store is left
unchanged in that case. -/
def updateTransferStatus (now : Nat) (transferId : String) (status : TransferStatus)
    (relayTxHash : Option String) (db : DB) : DB :=
  match getTransfer db transferId with
  | none => db
  | some r =>
    let updated : TransferRecord :=
      { r with status := status, updatedAt := now,
               relayTxHash := match relayTxHash with
                 | some h => some h
                 | none => r.relayTxHash }
    { db with transfers := setAssoc db.transfers transferId updated }

/-- The in-record update step of `Database.saveAttestation`: replace the first
attestation carrying the same validator address (`findIndex` hit), else push
at the end. -/
def updateAttList : List SignedAttestation → SignedAttestation → List SignedAttestation
  | [], a => [a]
  | x :: rest, a =>
    if x.validatorAddress = a.validatorAddress then a :: rest
    else x :: updateAttList rest a

/-- `Database.hasAttestation`: key-presence test on the attestation rows. -/
def hasAttestation (db : DB) (transferId validatorAddress : String) : Bool :=
  (getAssoc db.attestRows (transferId, validatorAddress)).isSome

/-- `Database.saveAttestation`: put the attestation row under
`(transferId, validatorAddress)`, then, when the transfer record exists,
replace-or-append it in the record's `attestations` and bump `updatedAt`. -/
def saveAttestation (now : Nat) (a : SignedAttestation) (db : DB) : DB :=
  let rows := setAssoc db.attestRows (a.transferId, a.validatorAddress) a
  match getTransfer db a.transferId with
  | none => { db with attestRows := rows }
  | some r =>
    let updated : TransferRecord :=
      { r with attestations := updateAttList r.attestations a, updatedAt := now }
    { db with attestRows := rows,
              transfers := setAssoc db.transfers a.transferId updated }

/-- `Database.getPendingTransfers`: the records whose status is `pending` or
`attesting`. -/
def getPendingTransfers (db : DB) : List TransferRecord :=
  (db.transfers.map (fun p => p.2)).filter
    (fun r => decide (r.status = .pending) || decide (r.status = .attesting))

/-- `Database.saveWavesBlockHeight`: unconditional overwrite of the WAVES
watermark. -/
def saveWavesBlockHeight (height : Nat) (db : DB) : DB :=
  { db with wavesHeight := some height }

/-- `Database.getWavesBlockHeight`. -/
def getWavesBlockHeight (db : DB) : Option Nat := db.wavesHeight

/-- `Database.saveUnit0BlockHeight`: unconditional overwrite of the Unit0
watermark. -/
def saveUnit0BlockHeight (height : Nat) (db : DB) : DB :=
  { db with unit0Height := some height }

/-- `Database.getUnit0BlockHeight`. -/
def getUnit0BlockHeight (db : DB) : Option Nat := db.unit0Height

end Database

/-- `ethers.ZeroAddress`, the "not registered" result of
`wavesToUnit0Token`. -/
def zeroAddress : String := "0x0000000000000000000000000000000000000000"

namespace Relayer

/-- `Relayer.tokenTypeToNumber` (same switch as the signature engine's). -/
def tokenTypeToNumber : TokenType → Nat
  | .ERC20 => 0
  | .ERC721 => 1
  | .ERC1155 => 2
  | .NATIVE => 0

/-- `Relayer.transferIdToBytes32`: keccak256 of the UTF-8 bytes of the
transfer id string. -/
def transferIdToBytes32 (keccak : List Nat → List Nat) (transferId : String) : List Nat :=
  keccak (utf8 transferId)

/-- The argument lists of the two on-chain release entry points the relayer
can invoke on the Unit0 bridge. -/
inductive Unit0Call where
  | releaseNFT (transferIdB32 : List Nat) (token recipient : String)
      (tokenId : Nat) (signatures : List String)
  | releaseTokens (transferIdB32 : List Nat) (token : String) (amount : Nat)
      (recipient : String) (tokenType tokenId : Nat) (signatures : List String)
  deriving DecidableEq, Repr

/-- The transaction `relayToUnit0` builds once all guards pass: `releaseNFT`
for ERC721, else `releaseTokens`, with the signatures passed through as
received. -/
def buildUnit0Call (keccak : List Nat → List Nat) (t : TransferEvent)
    (tokenAddress : String) (signatures : List String) : Unit0Call :=
  if t.tokenType = .ERC721 then
    .releaseNFT (transferIdToBytes32 keccak t.transferId) tokenAddress
      t.recipient (t.tokenId.getD 0) signatures
  else
    .releaseTokens (transferIdToBytes32 keccak t.transferId) tokenAddress
      t.amount t.recipient (tokenTypeToNumber t.tokenType)
      (t.tokenId.getD 0) signatures

/-- The relayer's in-memory idempotence tracking (`completedTransfers`,
`pendingTransactions` key sets). -/
structure RelayerState where
  completedTransfers : List String
  pendingTransactions : List String
  deriving DecidableEq, Repr

/-- The chain-side answers `relayToUnit0` consults: the
`processedTransfers[idB32]` flag, the bridge's `validatorThreshold()` and the
`wavesToUnit0Token` resolution of the transfer's source token. -/
structure RelayEnv where
  processed : Bool
  validatorThreshold : Nat
  resolvedToken : String
  deriving DecidableEq, Repr

/-- `Relayer.relayToUnit0` decision logic: skip when locally completed or
pending, when already processed on-chain, when the signature list is shorter
than the on-chain threshold, or when the token resolution returns the zero
address; otherwise submit the release call.  `some call` stands for a
submitted transaction with those arguments, `none` for no submission. -/
def relayToUnit0 (keccak : List Nat → List Nat) (st : RelayerState) (env : RelayEnv)
    (t : TransferEvent) (signatures : List String) : Option Unit0Call :=
  if st.completedTransfers.contains t.transferId then none
  else if st.pendingTransactions.contains t.transferId then none
  else if env.processed then none
  else if signatures.length < env.validatorThreshold then none
  else if env.resolvedToken = zeroAddress then none
  else some (buildUnit0Call keccak t env.resolvedToken signatures)

end Relayer

namespace ValidatorNode

/-- `ValidatorNode.handleReceivedAttestation`: drop when the
`(transferId, validatorAddress)` row already exists, drop when the signature
fails the engine's verification against the claimed validator address
(`verify` abstracts `verifySignature` with recovery), else persist.  No
validator-set membership is consulted. -/
def handleReceivedAttestation (verify : SignedAttestation → Bool) (now : Nat)
    (a : SignedAttestation) (db : DB) : DB :=
  if Database.hasAttestation db a.transferId a.validatorAddress then db
  else if verify a then Database.saveAttestation now a db
  else db

/-- `ValidatorNode.handleNewTransfer` (index.ts): save the transfer if absent,
sign our own attestation (`sign` abstracts the engine call), persist it, then
set the record's status to `attesting` — unconditionally, whatever the
record's status was before. -/
def handleNewTransfer (sign : TransferEvent → SignedAttestation) (now : Nat)
    (t : TransferEvent) (db : DB) : DB :=
  let db1 := Database.saveTransfer now t db
  let db2 := Database.saveAttestation now (sign t) db1
  Database.updateTransferStatus now t.transferId .attesting none db2

/-- The resolving variant of `handleNewTransfer` (the coordinator that
resolves the destination token before signing): a zero-address Unit0
resolution or a missing WAVES asset mapping marks the record `failed` before
any signing; otherwise sign with the resolved reference and set
`attesting`. -/
def handleNewTransferResolved (resolveUnit0 : String → String)
    (resolveWaves : String → Option String)
    (signB : TransferEvent → String → SignedAttestation)
    (signA : TransferEvent → String → SignedAttestation)
    (now : Nat) (t : TransferEvent) (db : DB) : DB :=
  let db1 := Database.saveTransfer now t db
  match t.destinationChain with
  | .UNIT0 =>
    let tokenAddress := resolveUnit0 t.token
    if tokenAddress = zeroAddress then
      Database.updateTransferStatus now t.transferId .failed none db1
    else
      let db2 := Database.saveAttestation now (signB t tokenAddress) db1
      Database.updateTransferStatus now t.transferId .attesting none db2
  | .WAVES =>
    match resolveWaves t.token with
    | none => Database.updateTransferStatus now t.transferId .failed none db1
    | some assetId =>
      let db2 := Database.saveAttestation now (signA t assetId) db1
      Database.updateTransferStatus now t.transferId .attesting none db2

/-- The signature list `processPendingTransfers` collects for a record:
`record.attestations.map (a => a.signature)`, in stored order. -/
def collectedSignatures (r : TransferRecord) : List String :=
  r.attestations.map (fun a => a.signature)

/-- `ValidatorNode.processPendingTransfers` gating: of the open records, those
whose collected signature count reaches the threshold are handed to the
relayer, paired with their signature lists. -/
def sweepRelayCandidates (threshold : Nat) (db : DB) :
    List (TransferRecord × List String) :=
  (Database.getPendingTransfers db).filterMap (fun r =>
    if threshold ≤ (collectedSignatures r).length then
      some (r, collectedSignatures r)
    else none)

/-- `ValidatorNode.relayTransfer` outcome handling: a returned tx hash marks
the record `completed`; a `null` return leaves the store untouched. -/
def relayResult (now : Nat) (transferId : String) (txHash : Option String)
    (db : DB) : DB :=
  match txHash with
  | some h => Database.updateTransferStatus now transferId .completed (some h) db
  | none => db

end ValidatorNode

/-- A concrete stand-in hash, used only to instantiate the abstract hash
parameters of the theorems on closed inputs. -/
def hashStub (bs : List Nat) : List Nat := List.replicate 32 (bs.length % 256)

/-- The per-record uniqueness invariant of the attestation storage: each
record holds at most one attestation per validator address. -/
def DB.attDistinct (db : DB) : Prop :=
  ∀ p ∈ db.transfers, (p.2.attestations.map (fun x => x.validatorAddress)).Nodup

theorem getAssoc_setAssoc_self {K A : Type} [DecidableEq K]
    (l : List (K × A)) (k : K) (v : A) : getAssoc (setAssoc l k v) k = some v := by
  induction l with
  | nil => simp [setAssoc, getAssoc]
  | cons p rest ih =>
    by_cases h : p.1 = k
    · simp [setAssoc, getAssoc, h]
    · simp [setAssoc, getAssoc, h, ih]

theorem mem_setAssoc {K A : Type} [DecidableEq K]
    (l : List (K × A)) (k : K) (v : A) :
    ∀ p ∈ setAssoc l k v, p ∈ l ∨ p = (k, v) := by
  induction l with
  | nil => simp [setAssoc]
  | cons q rest ih =>
    intro p hp
    by_cases h : q.1 = k
    · simp [setAssoc, h] at hp
      rcases hp with hp | hp
      · right; simp [hp]
      · left; simp [hp]
    · simp [setAssoc, h] at hp
      rcases hp with hp | hp
      · left; simp [hp]
      · rcases ih p hp with h1 | h1
        · left; simp [h1]
        · right; exact h1

theorem getAssoc_mem {K A : Type} [DecidableEq K]
    (l : List (K × A)) (k : K) (v : A) (h : getAssoc l k = some v) : (k, v) ∈ l := by
  induction l with
  | nil => simp [getAssoc] at h
  | cons p rest ih =>
    by_cases hk : p.1 = k
    · simp [getAssoc, hk] at h
      have hp : p = (k, v) := by
        obtain ⟨a, b⟩ := p
        simp_all
      rw [hp]
      exact List.mem_cons_self _ _
    · simp [getAssoc, hk] at h
      right
      exact ih h

theorem mem_map_addr_updateAttList (l : List SignedAttestation) (a : SignedAttestation) :
    ∀ y ∈ (Database.updateAttList l a).map (fun x => x.validatorAddress),
      y ∈ l.map (fun x => x.validatorAddress) ∨ y = a.validatorAddress := by
  induction l with
  | nil => simp [Database.updateAttList]
  | cons x rest ih =>
    intro y hy
    by_cases h : x.validatorAddress = a.validatorAddress
    · simp [Database.updateAttList, h] at hy
      rcases hy with hy | hy
      · right; exact hy
      · left; simp [hy]
    · simp [Database.updateAttList, h] at hy
      rcases hy with hy | hy
      · left; simp [hy]
      · rcases ih y (by simpa using hy) with h1 | h1
        · left; simp
          rcases List.mem_map.mp h1 with ⟨b, hb, hb2⟩
          exact Or.inr ⟨b, hb, hb2⟩
        · right; exact h1

theorem nodup_updateAttList (l : List SignedAttestation) (a : SignedAttestation)
    (h : (l.map (fun x => x.validatorAddress)).Nodup) :
    ((Database.updateAttList l a).map (fun x => x.validatorAddress)).Nodup := by
  induction l with
  | nil => simp [Database.updateAttList]
  | cons x rest ih =>
    simp only [List.map_cons, List.nodup_cons] at h
    by_cases hx : x.validatorAddress = a.validatorAddress
    · simp only [Database.updateAttList, if_pos hx, List.map_cons, List.nodup_cons]
      exact ⟨by rw [← hx]; exact h.1, h.2⟩
    · simp only [Database.updateAttList, if_neg hx, List.map_cons, List.nodup_cons]
      refine ⟨?_, ih h.2⟩
      intro hmem
      rcases mem_map_addr_updateAttList rest a _ hmem with h1 | h1
      · exact h.1 h1
      · exact hx h1

theorem attDistinct_saveAttestation (now : Nat) (a : SignedAttestation) (db : DB)
    (h : DB.attDistinct db) : DB.attDistinct (Database.saveAttestation now a db) := by
  unfold Database.saveAttestation
  cases hg : Database.getTransfer db a.transferId with
  | none => exact h
  | some r =>
    intro p hp
    rcases mem_setAssoc _ _ _ p hp with hp1 | hp1
    · exact h p hp1
    · subst hp1
      exact nodup_updateAttList r.attestations a
        (h _ (getAssoc_mem db.transfers a.transferId r hg))

theorem hasAttestation_saveAttestation (now : Nat) (a : SignedAttestation) (db : DB) :
    Database.hasAttestation (Database.saveAttestation now a db)
      a.transferId a.validatorAddress = true := by
  unfold Database.saveAttestation Database.hasAttestation
  cases hg : Database.getTransfer db a.transferId <;>
    simp [getAssoc_setAssoc_self]

theorem getTransfer_saveAttestation (now : Nat) (a : SignedAttestation) (db : DB)
    (r : TransferRecord) (h : Database.getTransfer db a.transferId = some r) :
    Database.getTransfer (Database.saveAttestation now a db) a.transferId =
      some { r with attestations := Database.updateAttList r.attestations a,
                    updatedAt := now } := by
  unfold Database.saveAttestation
  rw [h]
  simp [Database.getTransfer, getAssoc_setAssoc_self]

theorem getTransfer_updateTransferStatus (now : Nat) (transferId : String)
    (status : TransferStatus) (tx : Option String) (db : DB) (r : TransferRecord)
    (h : Database.getTransfer db transferId = some r) :
    Database.getTransfer (Database.updateTransferStatus now transferId status tx db)
      transferId =
      some { r with status := status, updatedAt := now,
                    relayTxHash := match tx with
                      | some x => some x
                      | none => r.relayTxHash } := by
  unfold Database.updateTransferStatus
  rw [h]
  simp [Database.getTransfer, getAssoc_setAssoc_self]

theorem getTransfer_saveTransfer_isSome (now : Nat) (t : TransferEvent) (db : DB) :
    (Database.getTransfer (Database.saveTransfer now t db) t.transferId).isSome := by
  unfold Database.saveTransfer
  cases hg : Database.getTransfer db t.transferId with
  | none => simp [Database.getTransfer, getAssoc_setAssoc_self]
  | some r => simp [Database.getTransfer] at hg ⊢; simp [hg]

theorem beBytes_one (n : Nat) : beBytes 1 n = [n % 256] := by
  simp [beBytes, List.range_succ]

theorem setAssoc_setAssoc {K A : Type} [DecidableEq K]
    (l : List (K × A)) (k : K) (v w : A) :
    setAssoc (setAssoc l k v) k w = setAssoc l k w := by
  induction l with
  | nil => simp [setAssoc]
  | cons p rest ih =>
    by_cases h : p.1 = k
    · simp [setAssoc, h]
    · simp [setAssoc, h, ih]

theorem updateAttList_idem (l : List SignedAttestation) (a : SignedAttestation) :
    Database.updateAttList (Database.updateAttList l a) a =
      Database.updateAttList l a := by
  induction l with
  | nil => simp [Database.updateAttList]
  | cons x rest ih =>
    by_cases h : x.validatorAddress = a.validatorAddress
    · simp [Database.updateAttList, h]
    · simp [Database.updateAttList, h, ih]

theorem saveAttestation_idem (now : Nat) (a : SignedAttestation) (db : DB) :
    Database.saveAttestation now a (Database.saveAttestation now a db) =
      Database.saveAttestation now a db := by
  cases hg : Database.getTransfer db a.transferId with
  | none =>
    have h1 : Database.saveAttestation now a db =
        { db with attestRows :=
            setAssoc db.attestRows (a.transferId, a.validatorAddress) a } := by
      unfold Database.saveAttestation
      rw [hg]
    rw [h1]
    unfold Database.saveAttestation
    rw [show Database.getTransfer
        { db with attestRows :=
            setAssoc db.attestRows (a.transferId, a.validatorAddress) a }
        a.transferId = none from hg]
    simp [setAssoc_setAssoc]
  | some r =>
    have h1 : Database.saveAttestation now a db =
        { db with
            attestRows := setAssoc db.attestRows (a.transferId, a.validatorAddress) a,
            transfers := setAssoc db.transfers a.transferId
              { r with attestations := Database.updateAttList r.attestations a,
                       updatedAt := now } } := by
      unfold Database.saveAttestation
      rw [hg]
    rw [h1]
    unfold Database.saveAttestation
    rw [show Database.getTransfer
        { db with
            attestRows := setAssoc db.attestRows (a.transferId, a.validatorAddress) a,
            transfers := setAssoc db.transfers a.transferId
              { r with attestations := Database.updateAttList r.attestations a,
                       updatedAt := now } }
        a.transferId =
        some { r with attestations := Database.updateAttList r.attestations a,
                      updatedAt := now } from by
      simp [Database.getTransfer, getAssoc_setAssoc_self]]
    simp [setAssoc_setAssoc, updateAttList_idem]

/-- A sample A-to-B fungible transfer used for the closed instances. -/
def sampleTransfer : TransferEvent :=
  { transferId := "t1", sourceChain := .WAVES, destinationChain := .UNIT0,
    token := "WAVES", amount := 100000000, sender := "3PSenderAddr",
    recipient := "0xaabbccddeeff00112233445566778899aabbccdd",
    tokenType := .ERC20, tokenId := none }

/-- A stand-in for the engine's own signing call in closed instances. -/
def stubSign : TransferEvent → SignedAttestation := fun t =>
  { transferId := t.transferId, signature := "0xownsig",
    validatorAddress := "0x1111111111111111111111111111111111111111",
    publicKey := none, messageHash := "0xmh1", timestamp := 3 }

/-- An attestation stored for `sampleTransfer` by validator v1. -/
def att1 : SignedAttestation :=
  { transferId := "t1", signature := "0xsigv1",
    validatorAddress := "0x1111111111111111111111111111111111111111",
    publicKey := none, messageHash := "0xmh1", timestamp := 3 }

/-- A record for `sampleTransfer` already `completed` with a relay tx. -/
def completedRecord : TransferRecord :=
  { transfer := sampleTransfer, attestations := [att1], status := .completed,
    relayTxHash := some "0xrelayedtx", createdAt := 1, updatedAt := 2 }

/-- A store holding only the completed record. -/
def dbCompleted : DB :=
  { transfers := [("t1", completedRecord)],
    attestRows := [(("t1", att1.validatorAddress), att1)],
    wavesHeight := none, unit0Height := none }

/-- A record for `sampleTransfer` still `attesting` with one attestation. -/
def attestingRecord : TransferRecord :=
  { transfer := sampleTransfer, attestations := [att1], status := .attesting,
    relayTxHash := none, createdAt := 1, updatedAt := 2 }

/-- A store holding only the attesting record. -/
def dbAttesting : DB :=
  { transfers := [("t1", attestingRecord)],
    attestRows := [(("t1", att1.validatorAddress), att1)],
    wavesHeight := none, unit0Height := none }

/-- A record with an empty attestation list, status `attesting`. -/
def openRecord : TransferRecord :=
  { transfer := sampleTransfer, attestations := [], status := .attesting,
    relayTxHash := none, createdAt := 1, updatedAt := 2 }

/-- A store holding only the open record, no attestation rows. -/
def dbOpen : DB :=
  { transfers := [("t1", openRecord)], attestRows := [],
    wavesHeight := none, unit0Height := none }

/-- A chain environment where the token resolution misses (zero address). -/
def missEnv : Relayer.RelayEnv :=
  { processed := false, validatorThreshold := 1, resolvedToken := zeroAddress }

/-- A registered Unit0 token address for the happy-path instances. -/
def okToken : String := "0x4025a8ee89daead315de690f0c250cab5309a115"

/-- A chain environment where everything is in place for a relay. -/
def okEnv : Relayer.RelayEnv :=
  { processed := false, validatorThreshold := 2, resolvedToken := okToken }

/-- The active validator set the spec expects inbound attestations to be
checked against. -/
def activeValidators : List String :=
  ["0x1111111111111111111111111111111111111111"]

/-- An inbound attestation whose claimed validator is not in
`activeValidators` but whose signature verifies against that claimed
address. -/
def eveAtt : SignedAttestation :=
  { transferId := "t1", signature := "0xevesig",
    validatorAddress := "0xeeeeeeeeeeeeeeeeeeeeeeeeeeeeeeeeeeeeeeee",
    publicKey := none, messageHash := "0xmh2", timestamp := 4 }

/-- Two attestations from distinct validators carrying byte-identical
signatures (identical signatures necessarily recover to the same signer). -/
def dupRecord : TransferRecord :=
  { transfer := sampleTransfer,
    attestations :=
      [{ att1 with signature := "0xdupsig" },
       { att1 with validatorAddress := "0x2222222222222222222222222222222222222222",
                   signature := "0xdupsig" }],
    status := .attesting, relayTxHash := none, createdAt := 1, updatedAt := 2 }

/-- Claim C1: for a transfer bound for chain B the signing engine's
attestation digest is keccak256 of the Ethereum personal-message banner
applied to the outer hash, the outer hash being keccak256 of the tight
packed concatenation of the 32-byte transfer id, the resolved 20-byte
B-side token address, the amount as u256 big-endian, the 20-byte recipient,
the token kind as u8, the token id as u256 (0 when absent) and the
destination chain id as u256, in that order; the 32-byte transfer id of a
text transfer id is keccak256 of its UTF-8 bytes. -/
theorem unit0_attestation_digest_matches_spec
    (keccak : List Nat → List Nat) (chainId : Nat) (t : TransferEvent)
    (tokenAddress : String) :
    SignatureEngine.unit0AttestationDigest keccak chainId t (some tokenAddress) =
      Spec.unit0SignedDigest keccak t tokenAddress chainId := by
  cases ht : t.tokenType <;>
    simp [SignatureEngine.unit0AttestationDigest,
      SignatureEngine.createUnit0MessageHash, Spec.unit0SignedDigest,
      Spec.outerHash, Spec.transferIdAs32Bytes, ht,
      SignatureEngine.tokenTypeToNumber, beBytes_one, List.append_assoc]

/-- Claim C4: for a transfer bound for chain A the signing engine builds the
message as the plain string concatenation of transfer id, recipient, A-side
asset reference, decimal amount and the decimal Unit0 chain id with no
separators; the signed digest is sha256 of its UTF-8 bytes, the attestation
signature is the library's Base58-encoded ed25519 signature of that digest,
and the attestation carries the validator's waves public key. -/
theorem waves_attestation_matches_spec
    (sha256 : List Nat → List Nat) (signBytes : String → List Nat → String)
    (wavesPublicKey : String → String) (seed walletAddress : String) (now : Nat)
    (t : TransferEvent) (wavesAssetId : String) :
    (SignatureEngine.signTransferForWaves sha256 signBytes wavesPublicKey seed
        walletAddress now t wavesAssetId).signature =
      signBytes seed (Spec.wavesDigest sha256 t wavesAssetId 88811) ∧
    (SignatureEngine.signTransferForWaves sha256 signBytes wavesPublicKey seed
        walletAddress now t wavesAssetId).messageHash =
      bytesToHex (Spec.wavesDigest sha256 t wavesAssetId 88811) ∧
    (SignatureEngine.signTransferForWaves sha256 signBytes wavesPublicKey seed
        walletAddress now t wavesAssetId).publicKey =
      some (wavesPublicKey seed) := by
  refine ⟨?_, ?_, ?_⟩ <;>
    simp [SignatureEngine.signTransferForWaves,
      SignatureEngine.createWavesMessageData, Spec.wavesDigest,
      SignatureEngine.UNIT0_CHAIN_ID]

/-- Claim C10: a NATIVE token kind — the only kind besides ERC20, ERC721 and
ERC1155 — is encoded as 0, the ERC20 code, both by the signing engine when
building the B-destination digest and by the relayer when building the
releaseTokens call: it is silently collapsed to fungible, not rejected. -/
theorem native_kind_collapses_to_fungible :
    SignatureEngine.tokenTypeToNumber .NATIVE = 0 ∧
    Relayer.tokenTypeToNumber .NATIVE = 0 ∧
    SignatureEngine.tokenTypeToNumber .NATIVE =
      SignatureEngine.tokenTypeToNumber .ERC20 ∧
    (∀ (keccak : List Nat → List Nat) (chainId : Nat) (t : TransferEvent)
        (tokenAddress : String),
      SignatureEngine.createUnit0MessageHash keccak chainId
          { t with tokenType := .NATIVE } tokenAddress =
        SignatureEngine.createUnit0MessageHash keccak chainId
          { t with tokenType := .ERC20 } tokenAddress) ∧
    (∀ (keccak : List Nat → List Nat) (t : TransferEvent)
        (tokenAddress : String) (signatures : List String),
      Relayer.buildUnit0Call keccak { t with tokenType := .NATIVE }
          tokenAddress signatures =
        .releaseTokens (Relayer.transferIdToBytes32 keccak t.transferId)
          tokenAddress t.amount t.recipient 0 (t.tokenId.getD 0) signatures) := by
  refine ⟨rfl, rfl, rfl, ?_, ?_⟩
  · intro keccak chainId t tokenAddress
    simp [SignatureEngine.createUnit0MessageHash, SignatureEngine.tokenTypeToNumber]
  · intro keccak t tokenAddress signatures
    simp [Relayer.buildUnit0Call, Relayer.tokenTypeToNumber]

/-- Claim C3: no relay submission happens below the on-chain threshold: the
relayer returns without submitting whenever the signature list is shorter
than the bridge's validator threshold, and the coordinator's sweep hands a
record to the relayer only when its collected signature count reaches the
threshold. -/
theorem no_relay_below_threshold :
    (∀ (keccak : List Nat → List Nat) (st : Relayer.RelayerState)
        (env : Relayer.RelayEnv) (t : TransferEvent) (signatures : List String),
      signatures.length < env.validatorThreshold →
        Relayer.relayToUnit0 keccak st env t signatures = none) ∧
    (∀ (threshold : Nat) (db : DB) (c : TransferRecord × List String),
      c ∈ ValidatorNode.sweepRelayCandidates threshold db →
        threshold ≤ c.2.length ∧ c.2 = ValidatorNode.collectedSignatures c.1) := by
  constructor
  · intro keccak st env t signatures h
    simp [Relayer.relayToUnit0, h]
  · intro threshold db c hc
    unfold ValidatorNode.sweepRelayCandidates at hc
    rcases List.mem_filterMap.mp hc with ⟨r, hr, hmk⟩
    by_cases hlen : threshold ≤ (ValidatorNode.collectedSignatures r).length
    · rw [if_pos hlen] at hmk
      obtain rfl := Option.some.inj hmk
      exact ⟨hlen, rfl⟩
    · rw [if_neg hlen] at hmk
      exact absurd hmk (by simp)

/-- Witness for C3: with one collected signature against a threshold of two,
the relayer does not submit. -/
theorem no_relay_below_threshold_witness :
    Relayer.relayToUnit0 hashStub ⟨[], []⟩ okEnv sampleTransfer ["0xsigv1"] = none :=
  no_relay_below_threshold.1 hashStub ⟨[], []⟩ okEnv sampleTransfer ["0xsigv1"]
    (by decide)

/-- Claim C2 (code bug): the relayer forwards the collected signature list to
releaseTokens verbatim — unsorted and undeduplicated.  At this input two
byte-identical signatures, which necessarily recover to the same signer,
are both submitted, and a two-element list is submitted in its stored
order whatever addresses its signatures recover to; the bridge contract's
strictly-increasing-signer check rejects such a call. -/
theorem relayer_submits_signatures_verbatim :
    ValidatorNode.collectedSignatures dupRecord = ["0xdupsig", "0xdupsig"] ∧
    Relayer.relayToUnit0 hashStub ⟨[], []⟩ okEnv sampleTransfer
        (ValidatorNode.collectedSignatures dupRecord) =
      some (.releaseTokens (List.replicate 32 2) okToken 100000000
        "0xaabbccddeeff00112233445566778899aabbccdd" 0 0
        ["0xdupsig", "0xdupsig"]) ∧
    Relayer.relayToUnit0 hashStub ⟨[], []⟩ okEnv sampleTransfer ["0xbb", "0xaa"] =
      some (.releaseTokens (List.replicate 32 2) okToken 100000000
        "0xaabbccddeeff00112233445566778899aabbccdd" 0 0
        ["0xbb", "0xaa"]) := by decide

/-- Claim C5: attestation ingestion is idempotent: ingesting an attestation
through the gossip handler a second time leaves the store exactly unchanged,
a direct second store write of the same attestation at the same clock is a
no-op, and the per-record invariant of at most one attestation per validator
address is preserved by every store write. -/
theorem attestation_ingest_idempotent :
    (∀ (verify : SignedAttestation → Bool) (now1 now2 : Nat)
        (a : SignedAttestation) (db : DB),
      ValidatorNode.handleReceivedAttestation verify now2 a
          (ValidatorNode.handleReceivedAttestation verify now1 a db) =
        ValidatorNode.handleReceivedAttestation verify now1 a db) ∧
    (∀ (now : Nat) (a : SignedAttestation) (db : DB),
      Database.saveAttestation now a (Database.saveAttestation now a db) =
        Database.saveAttestation now a db) ∧
    (∀ (now : Nat) (a : SignedAttestation) (db : DB),
      DB.attDistinct db → DB.attDistinct (Database.saveAttestation now a db)) := by
  refine ⟨?_, saveAttestation_idem, attDistinct_saveAttestation⟩
  intro verify now1 now2 a db
  unfold ValidatorNode.handleReceivedAttestation
  by_cases h1 : Database.hasAttestation db a.transferId a.validatorAddress
  · simp [h1]
  · by_cases h2 : verify a
    · simp [h1, h2, hasAttestation_saveAttestation]
    · simp [h1, h2]

/-- Witness for C5: a concrete store satisfying the uniqueness invariant
still satisfies it after a save, and a duplicate gossip delivery of a stored
attestation leaves the store unchanged. -/
theorem attestation_ingest_idempotent_witness :
    DB.attDistinct dbAttesting ∧
    DB.attDistinct (Database.saveAttestation 7 eveAtt dbAttesting) ∧
    ValidatorNode.handleReceivedAttestation (fun _ => true) 8 eveAtt
        (ValidatorNode.handleReceivedAttestation (fun _ => true) 7 eveAtt dbAttesting) =
      ValidatorNode.handleReceivedAttestation (fun _ => true) 7 eveAtt dbAttesting :=
  ⟨by unfold DB.attDistinct; decide,
   attestation_ingest_idempotent.2.2 7 eveAtt dbAttesting
     (by unfold DB.attDistinct; decide),
   attestation_ingest_idempotent.1 (fun _ => true) 7 8 eveAtt dbAttesting⟩

/-- Claim C6 counterexample: re-delivery of an already-known transfer event
moves a `completed` record back to `attesting`: the coordinator's
new-transfer handler rolls the status back. -/
theorem status_rollback_on_redelivery :
    (Database.getTransfer dbCompleted "t1").map (fun r => r.status) =
      some .completed ∧
    (Database.getTransfer
        (ValidatorNode.handleNewTransfer stubSign 9 sampleTransfer dbCompleted)
        "t1").map (fun r => r.status) = some .attesting := by decide

/-- Claim C6 as amended: the store's status update is an unconditional
overwrite with no ordering check, and the new-transfer handler ends every
delivery — first or repeated — with the record's status set to `attesting`,
whatever it was before, so `completed` and `failed` records are rolled
back on re-delivery. -/
theorem redelivery_resets_status_to_attesting :
    (∀ (sign : TransferEvent → SignedAttestation) (now : Nat) (t : TransferEvent)
        (db : DB) (r : TransferRecord),
      (sign t).transferId = t.transferId →
      Database.getTransfer db t.transferId = some r →
        ∃ r2, Database.getTransfer
            (ValidatorNode.handleNewTransfer sign now t db) t.transferId =
              some r2 ∧ r2.status = .attesting) ∧
    (∀ (now : Nat) (transferId : String) (status : TransferStatus)
        (tx : Option String) (db : DB) (r : TransferRecord),
      Database.getTransfer db transferId = some r →
        ∃ r2, Database.getTransfer
            (Database.updateTransferStatus now transferId status tx db)
              transferId = some r2 ∧ r2.status = status) := by
  constructor
  · intro sign now t db r hsign h
    unfold ValidatorNode.handleNewTransfer
    have h1 : Database.saveTransfer now t db = db := by
      unfold Database.saveTransfer
      rw [h]
    rw [h1]
    have h2 : Database.getTransfer db (sign t).transferId = some r := by
      rw [hsign]
      exact h
    have h3 := getTransfer_saveAttestation now (sign t) db r h2
    rw [hsign] at h3
    exact ⟨_, getTransfer_updateTransferStatus now t.transferId .attesting none _ _ h3,
      rfl⟩
  · intro now transferId status tx db r h
    exact ⟨_, getTransfer_updateTransferStatus now transferId status tx db r h, rfl⟩

/-- Witness for the amended C6: the completed sample record ends at
`attesting` after a re-delivery. -/
theorem redelivery_resets_status_witness :
    ∃ r2, Database.getTransfer
        (ValidatorNode.handleNewTransfer stubSign 9 sampleTransfer dbCompleted)
        sampleTransfer.transferId = some r2 ∧ r2.status = .attesting :=
  redelivery_resets_status_to_attesting.1 stubSign 9 sampleTransfer dbCompleted
    completedRecord (by decide) (by decide)

/-- Claim C7 counterexample: the store accepts a watermark strictly below the
stored one — saving height 100 then 50 leaves the persisted WAVES watermark
at 50, so non-increasing heights are not rejected. -/
theorem watermark_accepts_decrease :
    Database.getWavesBlockHeight
        (Database.saveWavesBlockHeight 50
          (Database.saveWavesBlockHeight 100 DB.empty)) = some 50 ∧
    (50 : Nat) < 100 := by decide

/-- Claim C7 as amended: the watermark save operations are unconditional
last-write-wins overwrites; the stored value after a save is exactly the
height given, whether larger or smaller than the previous one, and
monotonicity rests entirely on the callers. -/
theorem watermark_last_write_wins (height : Nat) (db : DB) :
    Database.getWavesBlockHeight (Database.saveWavesBlockHeight height db) =
      some height ∧
    Database.getUnit0BlockHeight (Database.saveUnit0BlockHeight height db) =
      some height :=
  ⟨rfl, rfl⟩

/-- Claim C8 counterexample: a resolver miss at relay time does not move the
record to `failed`: the relayer aborts without submitting, the coordinator
leaves the store unchanged, the record's status is still `attesting`, and
the record is still a sweep candidate, so it is retried automatically. -/
theorem resolver_miss_leaves_record_open :
    Relayer.relayToUnit0 hashStub ⟨[], []⟩ missEnv sampleTransfer
        (ValidatorNode.collectedSignatures attestingRecord) = none ∧
    ValidatorNode.relayResult 9 "t1" none dbAttesting = dbAttesting ∧
    (Database.getTransfer dbAttesting "t1").map (fun r => r.status) =
      some .attesting ∧
    (ValidatorNode.sweepRelayCandidates 1 dbAttesting).length = 1 := by decide

/-- Claim C8 as amended: a zero-address resolution at relay time makes the
relayer return without submitting, and a null relay result leaves the store
(and hence the record's status) unchanged, so the record is retried on
subsequent sweeps; only the resolving new-transfer handler marks a
resolver miss `failed`, at signing time. -/
theorem resolver_miss_behavior :
    (∀ (keccak : List Nat → List Nat) (st : Relayer.RelayerState)
        (env : Relayer.RelayEnv) (t : TransferEvent) (signatures : List String),
      env.resolvedToken = zeroAddress →
        Relayer.relayToUnit0 keccak st env t signatures = none) ∧
    (∀ (now : Nat) (transferId : String) (db : DB),
      ValidatorNode.relayResult now transferId none db = db) ∧
    (∀ (resolveUnit0 : String → String) (resolveWaves : String → Option String)
        (signB signA : TransferEvent → String → SignedAttestation)
        (now : Nat) (t : TransferEvent) (db : DB),
      t.destinationChain = .UNIT0 → resolveUnit0 t.token = zeroAddress →
        ∃ r2, Database.getTransfer
            (ValidatorNode.handleNewTransferResolved resolveUnit0 resolveWaves
              signB signA now t db) t.transferId = some r2 ∧
          r2.status = .failed) := by
  refine ⟨?_, ?_, ?_⟩
  · intro keccak st env t signatures h
    simp [Relayer.relayToUnit0, h]
  · intro now transferId db
    rfl
  · intro resolveUnit0 resolveWaves signB signA now t db hdest hmiss
    unfold ValidatorNode.handleNewTransferResolved
    rw [hdest]
    dsimp only
    rw [if_pos hmiss]
    have h1 := getTransfer_saveTransfer_isSome now t db
    rcases Option.isSome_iff_exists.mp h1 with ⟨r1, hr1⟩
    exact ⟨_, getTransfer_updateTransferStatus now t.transferId .failed none _ r1 hr1,
      rfl⟩

/-- Witness for the amended C8: concrete miss environment and a concrete
resolver returning the zero address. -/
theorem resolver_miss_behavior_witness :
    Relayer.relayToUnit0 hashStub ⟨[], []⟩ missEnv sampleTransfer ["0xsigv1"] = none ∧
    (∃ r2, Database.getTransfer
        (ValidatorNode.handleNewTransferResolved (fun _ => zeroAddress)
          (fun _ => none) (fun t _ => stubSign t) (fun t _ => stubSign t)
          9 sampleTransfer DB.empty) sampleTransfer.transferId = some r2 ∧
      r2.status = .failed) :=
  ⟨resolver_miss_behavior.1 hashStub ⟨[], []⟩ missEnv sampleTransfer ["0xsigv1"] rfl,
   resolver_miss_behavior.2.2 (fun _ => zeroAddress) (fun _ => none)
     (fun t _ => stubSign t) (fun t _ => stubSign t) 9 sampleTransfer DB.empty
     rfl rfl⟩

/-- Claim C9 counterexample: an inbound attestation whose claimed validator
is not in the active set but whose signature verifies against its own
claimed address is persisted, attached to the record and counted toward the
relay threshold — the handler never consults the validator set. -/
theorem nonmember_attestation_persisted :
    activeValidators.contains eveAtt.validatorAddress = false ∧
    Database.hasAttestation
        (ValidatorNode.handleReceivedAttestation (fun _ => true) 7 eveAtt dbOpen)
        "t1" eveAtt.validatorAddress = true ∧
    (Database.getTransfer
        (ValidatorNode.handleReceivedAttestation (fun _ => true) 7 eveAtt dbOpen)
        "t1").map (fun r => r.attestations) = some [eveAtt] ∧
    (ValidatorNode.sweepRelayCandidates 1
        (ValidatorNode.handleReceivedAttestation (fun _ => true) 7 eveAtt dbOpen)).map
      (fun c => c.2) = [["0xevesig"]] := by decide

/-- Claim C9 as amended: the gossip handler enforces only the signature check
against the claimed validator id — an attestation failing verification is
dropped with no state change — while no validator-set membership check
exists: any new attestation that verifies is persisted, member or not. -/
theorem attestation_filtering_behavior :
    (∀ (verify : SignedAttestation → Bool) (now : Nat) (a : SignedAttestation)
        (db : DB),
      verify a = false →
        ValidatorNode.handleReceivedAttestation verify now a db = db) ∧
    (∀ (verify : SignedAttestation → Bool) (now : Nat) (a : SignedAttestation)
        (db : DB),
      Database.hasAttestation db a.transferId a.validatorAddress = false →
      verify a = true →
        ValidatorNode.handleReceivedAttestation verify now a db =
          Database.saveAttestation now a db) := by
  constructor
  · intro verify now a db h
    simp [ValidatorNode.handleReceivedAttestation, h]
  · intro verify now a db h1 h2
    simp [ValidatorNode.handleReceivedAttestation, h1, h2]

/-- Witness for the amended C9: a failing verification drops the sample
attestation; a passing one persists it. -/
theorem attestation_filtering_witness :
    ValidatorNode.handleReceivedAttestation (fun _ => false) 7 eveAtt dbOpen =
      dbOpen ∧
    ValidatorNode.handleReceivedAttestation (fun _ => true) 7 eveAtt dbOpen =
      Database.saveAttestation 7 eveAtt dbOpen :=
  ⟨attestation_filtering_behavior.1 (fun _ => false) 7 eveAtt dbOpen rfl,
   attestation_filtering_behavior.2 (fun _ => true) 7 eveAtt dbOpen (by decide) rfl⟩

end WUBridge
